import Mathlib

/-!
Shallow embedding of the business-state module of the tiny-business-manager
repository (src/context/BusinessContext.tsx) together with the checkout
handler of src/pages/Invoicing.tsx.  Monetary amounts and quantities are
modelled as rationals; the JavaScript `toFixed(n)` display rounding is
modelled by `roundTo n` (round half away from zero towards larger values,
matching ECMAScript's choice of the larger candidate on ties); `parseFloat`
on plain decimal numerals is modelled by `jsParseFloat` (no exponent or
Infinity forms, which never arise here).
-/

namespace TinyBiz

/-- Rounding of a rational to `n` decimal places, as produced by the
JavaScript `x.toFixed(n)` / `parseFloat` round trip used throughout the
source (ties go to the larger value). -/
def roundTo (n : ℕ) (x : ℚ) : ℚ := (⌊x * 10 ^ n + 1 / 2⌋ : ℤ) / 10 ^ n

/-- Two-decimal rounding, `parseFloat(x.toFixed(2))` in the source. -/
def round2 (x : ℚ) : ℚ := roundTo 2 x

/-- Digit character to its numeric value, `none` on a non-digit. -/
def digitVal (c : Char) : Option ℕ :=
  if c.isDigit then some (c.toNat - 48) else none

/-- Longest prefix of decimal digits, returned with the remaining input. -/
def takeDigits : List Char → List ℕ × List Char
  | [] => ([], [])
  | c :: cs =>
    match digitVal c with
    | some d => let (ds, rest) := takeDigits cs; (d :: ds, rest)
    | none => ([], c :: cs)

/-- Numeric value of a digit list read as an integer numeral. -/
def digitsVal (ds : List ℕ) : ℚ := ds.foldl (fun a d => 10 * a + (d : ℚ)) 0

/-- Fractional value of the digit list read after a decimal point. -/
def fracVal (ds : List ℕ) : ℚ := digitsVal ds / 10 ^ ds.length

/-- Core of the `parseFloat` model on an explicit character list: optional
sign, then digits and an optional fractional part; the longest numeric
prefix is taken and the rest ignored, `none` plays the role of `NaN`. -/
def jsParseFloatCore (cs : List Char) : Option ℚ :=
  let cs := cs.dropWhile (fun c => c = ' ')
  let (sgn, cs) : ℚ × List Char :=
    match cs with
    | '-' :: t => (-1, t)
    | '+' :: t => (1, t)
    | t => (1, t)
  match takeDigits cs with
  | ([], rest) =>
    match rest with
    | '.' :: t =>
      match takeDigits t with
      | ([], _) => none
      | (fs, _) => some (sgn * fracVal fs)
    | _ => none
  | (ds, rest) =>
    match rest with
    | '.' :: t => let (fs, _) := takeDigits t; some (sgn * (digitsVal ds + fracVal fs))
    | _ => some (sgn * digitsVal ds)

/-- Model of JavaScript `parseFloat` on a string of a plain decimal numeral. -/
def jsParseFloat (s : String) : Option ℚ := jsParseFloatCore s.data

/-- Replacement of the first occurrence of a comma by a dot on a character
list, as done by `value.replace(',', '.')` in the source. -/
def replaceFirstCommaCore : List Char → List Char
  | [] => []
  | ',' :: t => '.' :: t
  | c :: t => c :: replaceFirstCommaCore t

/-- String form of `value.replace(',', '.')`. -/
def replaceFirstComma (s : String) : String := ⟨replaceFirstCommaCore s.data⟩

/-- ASCII lowering of one character, as `toLowerCase` acts on the catalog
names appearing here. -/
def jsLowerChar (c : Char) : Char :=
  if 'A' ≤ c ∧ c ≤ 'Z' then Char.ofNat (c.toNat + 32) else c

/-- Model of JavaScript `String.prototype.toLowerCase` on ASCII names. -/
def jsToLowerCase (s : String) : String := ⟨s.data.map jsLowerChar⟩

/-- Product record of the catalog (interface `Product` of the source). -/
structure Product where
  id : String
  name : String
  price : ℚ
  cost : ℚ
  profit_percentage : ℚ
  profit_margin : ℚ
  stock : ℚ
  category : String
  min_stock : ℚ
  sales_count : ℚ
  unit : Option String := none
  additional_info : Option String := none
  additional_prices : Option String := none
  key : Option String := none
  deriving DecidableEq, Repr

/-- Cart line: a product snapshot plus a quantity (interface `CartItem`). -/
structure CartItem extends Product where
  quantity : ℚ
  deriving DecidableEq, Repr

/-- Payment method union type of the source. -/
inductive PaymentMethod where
  | cash
  | pos
  | biopayment
  | credit
  deriving DecidableEq, Repr

/-- Customer classification chosen at checkout time. -/
inductive CustomerType where
  | regular
  | occasional
  deriving DecidableEq, Repr

/-- Immutable purchase record (interface `Purchase`); `payment_status` keeps
the source's string union with values "paid", "partial" and "credit". -/
structure Purchase where
  id : String
  date : String
  total_bs : ℚ
  total_usd : ℚ
  items : List CartItem
  payment_status : String
  payment_method : PaymentMethod
  amount_paid : Option ℚ := none
  customer_type : CustomerType
  customer_id : Option String := none
  deriving DecidableEq, Repr

/-- Customer ledger entry (interface `Customer`). -/
structure Customer where
  id : String
  name : String
  email : String
  phone : String
  credit_limit : ℚ
  current_credit : ℚ
  purchase_history : List Purchase
  deriving DecidableEq, Repr

/-- Currency selector used by payments and the change calculator. -/
inductive Currency where
  | bs
  | usd
  deriving DecidableEq, Repr

/-- Aggregate in-memory state owned by the provider: product catalog, cart,
customer ledger and the exchange rate. -/
structure BusinessState where
  products : List Product
  cart : List CartItem
  customers : List Customer
  exchangeRate : ℚ
  deriving DecidableEq, Repr

/-- Truthiness of the nullable `customerId` string (`null` and the empty
string are falsy in JavaScript). -/
def strTruthy : Option String → Bool
  | none => false
  | some s => s ≠ ""

/-- Subtotal in BS: per line, `price * quantity * rate` rounded to two
decimals, then summed (`calculateSubtotalBS` of the source). -/
def calculateSubtotalBS (cart : List CartItem) (exchangeRate : ℚ) : ℚ :=
  cart.foldl (fun total item => total + round2 (item.price * item.quantity * exchangeRate)) 0

/-- Subtotal in USD: per line, `price * quantity` rounded to two decimals,
then summed (`calculateSubtotalUSD` of the source). -/
def calculateSubtotalUSD (cart : List CartItem) : ℚ :=
  cart.foldl (fun total item => total + round2 (item.price * item.quantity)) 0

/-- Cart insertion (`addToCart` of the source): rejects quantities that are
not positive or exceed the product's stock; merges into an existing line for
the same product id with the merged quantity rounded to two decimals and
re-checked against stock, otherwise appends a fresh line. -/
def addToCart (cart : List CartItem) (product : Product) (quantity : ℚ) : List CartItem :=
  if quantity ≤ 0 then cart
  else if product.stock < quantity then cart
  else
    match cart.find? (fun item => item.id == product.id) with
    | some existingItem =>
      let totalQuantity := round2 (existingItem.quantity + quantity)
      if product.stock < totalQuantity then cart
      else cart.map (fun item =>
        if item.id == product.id then { item with quantity := totalQuantity } else item)
    | none => cart ++ [{ product with quantity := quantity }]

/-- Cart line removal (`removeFromCart` of the source). -/
def removeFromCart (cart : List CartItem) (productId : String) : List CartItem :=
  cart.filter (fun item => item.id ≠ productId)

/-- Live-stock re-validation of a quantity update: blocked when the product
is found in the catalog and the requested quantity exceeds its stock. -/
def stockBlocked (products : List Product) (productId : String) (quantity : ℚ) : Bool :=
  match products.find? (fun p => p.id == productId) with
  | some p => decide (p.stock < quantity)
  | none => false

/-- Cart quantity update (`updateCartItemQuantity` of the source): a
non-positive quantity removes the line; otherwise the quantity is validated
against the live product stock and stored rounded to two decimals. -/
def updateCartItemQuantity (products : List Product) (cart : List CartItem)
    (productId : String) (quantity : ℚ) : List CartItem :=
  if quantity ≤ 0 then removeFromCart cart productId
  else if stockBlocked products productId quantity then cart
  else cart.map (fun item =>
    if item.id == productId then { item with quantity := round2 quantity } else item)

/-- Quantity input handler (`handleQuantityChange` of Invoicing.tsx): the
first comma is turned into a dot, the result parsed as a float, and the cart
updated only when the parse yields a positive number. -/
def handleQuantityChange (products : List Product) (cart : List CartItem)
    (productId : String) (value : String) : List CartItem :=
  match jsParseFloat (replaceFirstComma value) with
  | some quantity =>
    if 0 < quantity then updateCartItemQuantity products cart productId quantity else cart
  | none => cart

/-- Direct stock update (`updateProductStock` of the source): a negative new
stock is rejected and the catalog left untouched. -/
def updateProductStock (products : List Product) (productId : String) (newStock : ℚ) :
    List Product :=
  if newStock < 0 then products
  else products.map (fun product =>
    if product.id == productId then { product with stock := newStock } else product)

/-- Catalog merge step of the bulk import (`setProducts` updater inside
`uploadProductsFromJSON`): already-coerced incoming products are filtered
against the names present in the previous catalog, compared lowercased, and
the survivors appended. -/
def uploadMergeProducts (prev newProducts : List Product) : List Product :=
  let existingNames := prev.map (fun p => jsToLowerCase p.name)
  let uniqueNewProducts :=
    newProducts.filter (fun p => !(existingNames.contains (jsToLowerCase p.name)))
  prev ++ uniqueNewProducts

/-- Payment application (`makePayment` of the source): the amount is
converted to USD when tendered in BS and subtracted from the matching
customer's `current_credit` with no floor at zero.  The boolean records
whether the success toast fired, which happens exactly for a matched
customer; an unknown id silently maps to the unchanged ledger. -/
def makePayment (customers : List Customer) (exchangeRate : ℚ) (customerId : String)
    (amount : ℚ) (currency : Currency) : List Customer × Bool :=
  let amountInUSD := if currency = Currency.bs then amount / exchangeRate else amount
  let customers' := customers.map (fun customer =>
    if customer.id == customerId then
      { customer with current_credit := customer.current_credit - amountInUSD }
    else customer)
  (customers', customers.any (fun customer => customer.id == customerId))

/-- Condition under which the purchase record's status is rewritten to
"partial" inside `completePurchase`: a truthy customer id that matches a
ledger entry, a non-credit method, and a truthy `amountPaid` below the USD
total (the rewrite happens inside the matched customer's map callback). -/
def purchasePartialCond (customers : List Customer) (customerId : Option String)
    (pm : PaymentMethod) (amountPaid : Option ℚ) (totalUSD : ℚ) : Bool :=
  match customerId, amountPaid with
  | some i, some a =>
    i ≠ "" && customers.any (fun c => c.id == i) &&
      !(pm == PaymentMethod.credit) && a ≠ 0 && a < totalUSD
  | _, _ => false

/-- Final `payment_status` of the purchase produced by `completePurchase`. -/
def purchaseStatus (customers : List Customer) (customerId : Option String)
    (pm : PaymentMethod) (amountPaid : Option ℚ) (totalUSD : ℚ) : String :=
  if pm = PaymentMethod.credit then "credit"
  else if purchasePartialCond customers customerId pm amountPaid totalUSD then "partial"
  else "paid"

/-- Amount added to the matched customer's `current_credit` by
`completePurchase`: the full total for a credit sale, the shortfall for a
partial cash sale, zero otherwise. -/
def creditDelta (pm : PaymentMethod) (amountPaid : Option ℚ) (totalUSD : ℚ) : ℚ :=
  if pm = PaymentMethod.credit then totalUSD
  else
    match amountPaid with
    | some a => if a ≠ 0 ∧ a < totalUSD then totalUSD - a else 0
    | none => 0

/-- Checkout commit (`completePurchase` of the source).  On an empty cart it
returns the state untouched and no purchase.  Otherwise it builds the
purchase record, updates the matched customer's credit and history, rewrites
stock as `max(0, stock - quantity)` and `sales_count + quantity`, both
rounded to two decimals, and clears the cart.  Fresh id and date are passed
in explicitly in place of `Date.now()` / `new Date()`. -/
def completePurchase (s : BusinessState) (newId newDate : String)
    (customerType : CustomerType) (customerId : Option String)
    (pm : PaymentMethod) (amountPaid : Option ℚ) : BusinessState × Option Purchase :=
  let totalBS := calculateSubtotalBS s.cart s.exchangeRate
  let totalUSD := calculateSubtotalUSD s.cart
  if s.cart = [] then (s, none)
  else
    let purchase : Purchase :=
      { id := newId, date := newDate, total_bs := totalBS, total_usd := totalUSD,
        items := s.cart,
        payment_status := purchaseStatus s.customers customerId pm amountPaid totalUSD,
        payment_method := pm, amount_paid := amountPaid, customer_type := customerType,
        customer_id := if strTruthy customerId then customerId else none }
    let customers' :=
      if strTruthy customerId then
        s.customers.map (fun customer =>
          if some customer.id = customerId then
            { customer with
              current_credit := customer.current_credit + creditDelta pm amountPaid totalUSD,
              purchase_history := purchase :: customer.purchase_history }
          else customer)
      else s.customers
    let products' := s.products.map (fun product =>
      match s.cart.find? (fun item => item.id == product.id) with
      | some cartItem =>
        { product with
          stock := round2 (max 0 (product.stock - cartItem.quantity)),
          sales_count := round2 (product.sales_count + cartItem.quantity) }
      | none => product)
    ({ s with products := products', customers := customers', cart := [] }, some purchase)

/-- Validation failures surfaced by the checkout path (toast errors of
`handleCompletePurchase` and the empty-cart toast of `completePurchase`). -/
inductive CheckoutError where
  | customerRequired
  | invalidAmount
  | insufficientPayment
  | emptyCart
  deriving DecidableEq, Repr

/-- Wrapper mapping `completePurchase` into the checkout result: a missing
purchase means the empty-cart toast fired. -/
def runCompletePurchase (s : BusinessState) (newId newDate : String)
    (customerType : CustomerType) (customerId : Option String)
    (pm : PaymentMethod) (amountPaid : Option ℚ) : BusinessState × Option CheckoutError :=
  match completePurchase s newId newDate customerType customerId pm amountPaid with
  | (s', some _) => (s', none)
  | (s', none) => (s', some CheckoutError.emptyCart)

/-- Checkout entry point (`handleCompletePurchase` of Invoicing.tsx composed
with `completePurchase`): credit requires a truthy selected customer; for a
cash sale with a non-empty amount field the field is parsed (comma tolerated
as decimal separator), rejected when non-numeric or non-positive, and an
amount below the subtotal without a selected customer is refused. -/
def checkout (s : BusinessState) (newId newDate : String)
    (customerType : CustomerType) (selectedCustomerId : Option String)
    (pm : PaymentMethod) (amountPaid : String) : BusinessState × Option CheckoutError :=
  if pm = PaymentMethod.credit ∧ ¬ strTruthy selectedCustomerId then
    (s, some CheckoutError.customerRequired)
  else if pm = PaymentMethod.cash ∧ amountPaid ≠ "" then
    match jsParseFloat (replaceFirstComma amountPaid) with
    | none => (s, some CheckoutError.invalidAmount)
    | some amount =>
      if amount ≤ 0 then (s, some CheckoutError.invalidAmount)
      else if amount < calculateSubtotalUSD s.cart ∧ ¬ strTruthy selectedCustomerId then
        (s, some CheckoutError.insufficientPayment)
      else runCompletePurchase s newId newDate customerType selectedCustomerId pm (some amount)
  else runCompletePurchase s newId newDate customerType selectedCustomerId pm none

/-! Concrete sample data used by the end-to-end scenario, the witnesses and
the counterexamples. -/

/-- Sample catalog product: price 10 USD, stock 5. -/
def demoProduct : Product :=
  { id := "p1", name := "Soda", price := 10, cost := 4, profit_percentage := 150,
    profit_margin := 6, stock := 5, category := "BEBIDA", min_stock := 5, sales_count := 0 }

/-- Sample customer with no outstanding credit. -/
def demoCustomer : Customer :=
  { id := "c1", name := "Ana", email := "ana@example.com", phone := "0414",
    credit_limit := 100, current_credit := 0, purchase_history := [] }

/-- Sample state: one-line cart (quantity 3 of `demoProduct`) at rate 35.5. -/
def demoState : BusinessState :=
  { products := [demoProduct], cart := [{ demoProduct with quantity := 3 }],
    customers := [demoCustomer], exchangeRate := 71 / 2 }

/-- Sample state whose cart line has the three-decimal quantity 0.125. -/
def demoStateEighth : BusinessState :=
  { demoState with cart := [{ demoProduct with quantity := 1 / 8 }] }

/-- C6: on a cart with one line of price 10 and quantity 3 (stock 5) at rate
35.5 the subtotals are 30.00 USD and 1065.00 BS, and completing the purchase
with cash and amountPaid 30 yields status "paid", stock 2, sales_count 3,
and an empty cart. -/
theorem C6_end_to_end_cash_scenario :
    calculateSubtotalUSD demoState.cart = 30 ∧
    calculateSubtotalBS demoState.cart demoState.exchangeRate = 1065 ∧
    (completePurchase demoState "pu1" "2024-01-01" CustomerType.occasional none
        PaymentMethod.cash (some 30)).2.map Purchase.payment_status = some "paid" ∧
    (completePurchase demoState "pu1" "2024-01-01" CustomerType.occasional none
        PaymentMethod.cash (some 30)).1.products.map Product.stock = [2] ∧
    (completePurchase demoState "pu1" "2024-01-01" CustomerType.occasional none
        PaymentMethod.cash (some 30)).1.products.map Product.sales_count = [3] ∧
    (completePurchase demoState "pu1" "2024-01-01" CustomerType.occasional none
        PaymentMethod.cash (some 30)).1.cart = [] := by
  norm_num [demoState, demoProduct, demoCustomer, completePurchase, calculateSubtotalUSD,
    calculateSubtotalBS, purchaseStatus, purchasePartialCond, creditDelta, strTruthy,
    round2, roundTo, List.find?]
  exact fun h => nomatch h

/-- Second record of the C10 batch: same name as the first up to case. -/
def demoImportA : Product := { demoProduct with id := "i1", name := "Cola" }

/-- First record of the C10 batch. -/
def demoImportB : Product := { demoProduct with id := "i2", name := "COLA" }

/-- C10: a batch with two records of the same case-insensitive name, unseen
in the pre-existing catalog, is imported with both records added: the dedup
filter only consults the catalog as it was before the import. -/
theorem C10_intra_batch_duplicates_both_added :
    jsToLowerCase demoImportA.name = jsToLowerCase demoImportB.name ∧
    (([demoProduct].map (fun q => jsToLowerCase q.name)).contains
      (jsToLowerCase demoImportA.name)) = false ∧
    uploadMergeProducts [demoProduct] [demoImportA, demoImportB] =
      [demoProduct, demoImportA, demoImportB] := by
  refine ⟨by decide, by decide, ?_⟩
  simp [uploadMergeProducts]
  decide

/-- C1 counterexample: with a non-empty cart totalling 30 USD, an existing
customer named by the id, a non-credit method, and `amountPaid` provided as
0 (which is below the total), the purchase commits with status "paid" and an
unchanged credit, where the claim demands status "partial" and a credit
increase of 30: the source tests `amountPaid` for JavaScript truthiness, so
a provided 0 is treated as absent. -/
theorem C1_counterexample_zero_amount_paid :
    PaymentMethod.cash ≠ PaymentMethod.credit ∧
    (0 : ℚ) < calculateSubtotalUSD demoState.cart ∧
    demoState.customers.any (fun c => c.id == "c1") = true ∧
    (completePurchase demoState "pu2" "2024-01-02" CustomerType.regular (some "c1")
        PaymentMethod.cash (some 0)).2.map Purchase.payment_status = some "paid" ∧
    (completePurchase demoState "pu2" "2024-01-02" CustomerType.regular (some "c1")
        PaymentMethod.cash (some 0)).1.customers.map Customer.current_credit = [0] := by
  refine ⟨by decide, ?_, by decide, ?_, ?_⟩
  all_goals simp +decide [demoState, demoProduct, demoCustomer, completePurchase,
    calculateSubtotalUSD, calculateSubtotalBS, purchaseStatus, purchasePartialCond,
    creditDelta, strTruthy, List.find?]
  all_goals norm_num [round2, roundTo]

/-- C4 counterexample: checking out a cart line with the three-decimal
quantity 0.125 against stock 5 leaves stock 4.88 and sales_count 0.13 — the
source rounds both to two decimals — whereas the claim demands exactly
max(0, 5 - 0.125) = 4.875 and a sales_count increase of exactly 0.125. -/
theorem C4_counterexample_two_decimal_rounding :
    max 0 (demoProduct.stock - (1 / 8 : ℚ)) = 39 / 8 ∧
    (completePurchase demoStateEighth "pu3" "2024-01-03" CustomerType.occasional none
        PaymentMethod.cash (some 30)).1.products.map Product.stock = [122 / 25] ∧
    (122 / 25 : ℚ) ≠ 39 / 8 ∧
    (completePurchase demoStateEighth "pu3" "2024-01-03" CustomerType.occasional none
        PaymentMethod.cash (some 30)).1.products.map Product.sales_count = [13 / 100] ∧
    (13 / 100 : ℚ) ≠ demoProduct.sales_count + 1 / 8 := by
  refine ⟨by norm_num [demoProduct], ?_, by norm_num, ?_, by norm_num [demoProduct]⟩
  all_goals simp +decide [demoStateEighth, demoState, demoProduct, demoCustomer,
    completePurchase, purchaseStatus, purchasePartialCond, creditDelta, strTruthy,
    List.find?]
  all_goals norm_num [round2, roundTo]

/-- C5 counterexample: adding quantity 0.001 of a product twice (stock 5, so
q1 + q2 = 0.002 ≤ stock) leaves one line whose quantity is 0 — the merged
quantity is rounded to two decimals — not the claimed q1 + q2 = 0.002. -/
theorem C5_counterexample_merge_rounds_to_zero :
    (0 : ℚ) < 1 / 1000 ∧
    (1 / 1000 : ℚ) + 1 / 1000 ≤ demoProduct.stock ∧
    (addToCart (addToCart [] demoProduct (1 / 1000)) demoProduct
        (1 / 1000)).map CartItem.quantity = [0] ∧
    (0 : ℚ) ≠ 1 / 1000 + 1 / 1000 := by
  refine ⟨by norm_num, by norm_num [demoProduct], ?_, by norm_num⟩
  norm_num [addToCart, demoProduct, round2, roundTo, List.find?]

/-- C8 counterexample: applying a payment for an id that names no customer
leaves the ledger unchanged and fires no toast at all — `makePayment` has no
CustomerNotFound failure path, it silently maps over the ledger. -/
theorem C8_counterexample_unknown_customer_silent :
    demoState.customers.any (fun c => c.id == "ghost") = false ∧
    makePayment demoState.customers demoState.exchangeRate "ghost" 10 Currency.usd =
      (demoState.customers, false) := by
  refine ⟨by decide, ?_⟩
  simp [makePayment, demoState, demoCustomer]

/-- C9 counterexample: the entered quantity "1,2345" parses (comma accepted
as separator) to 1.2345, but the quantity stored in the cart line is 1.23 —
the source rounds to two decimal places, not the claimed four. -/
theorem C9_counterexample_rounds_to_two_decimals :
    jsParseFloat (replaceFirstComma "1,2345") = some (2469 / 2000 : ℚ) ∧
    (handleQuantityChange [demoProduct] [{ demoProduct with quantity := 1 }] "p1"
        "1,2345").map CartItem.quantity = [123 / 100] ∧
    (123 / 100 : ℚ) ≠ 2469 / 2000 := by
  refine ⟨?_, ?_, by norm_num⟩
  · simp +decide [jsParseFloat, jsParseFloatCore, replaceFirstComma, replaceFirstCommaCore,
      takeDigits, digitVal, digitsVal, fracVal]
    norm_num
  · simp +decide [handleQuantityChange, jsParseFloat, jsParseFloatCore, replaceFirstComma,
      replaceFirstCommaCore, takeDigits, digitVal, digitsVal, fracVal,
      updateCartItemQuantity, removeFromCart, stockBlocked, demoProduct, List.find?]
    norm_num [round2, roundTo]

/-! Helper lemmas shared by the claim theorems. -/

/-- A purchase is produced exactly when the cart is non-empty. -/
lemma completePurchase_snd_none (s : BusinessState) (nid nd : String) (ct : CustomerType)
    (cid : Option String) (pm : PaymentMethod) (ap : Option ℚ)
    (h : (completePurchase s nid nd ct cid pm ap).2 = none) :
    (completePurchase s nid nd ct cid pm ap).1 = s := by
  unfold completePurchase at h ⊢
  by_cases hc : s.cart = [] <;> simp [hc] at h ⊢

/-- When the wrapper reports an error the state came back unchanged. -/
lemma runCompletePurchase_err_fst (s : BusinessState) (nid nd : String) (ct : CustomerType)
    (cid : Option String) (pm : PaymentMethod) (ap : Option ℚ) (e : CheckoutError)
    (h : (runCompletePurchase s nid nd ct cid pm ap).2 = some e) :
    (runCompletePurchase s nid nd ct cid pm ap).1 = s := by
  unfold runCompletePurchase at h ⊢
  cases hp : completePurchase s nid nd ct cid pm ap with
  | mk s2 op =>
    rw [hp] at h
    cases op with
    | some p => exact Option.noConfusion h
    | none =>
      have := completePurchase_snd_none s nid nd ct cid pm ap (by rw [hp])
      rw [hp] at this
      exact this

/-- C2: whenever the checkout path reports a validation error (empty cart,
credit without customer, invalid amount, insufficient cash payment with no
customer), the whole state — cart, catalog, ledger — is returned unchanged. -/
theorem C2_validation_failure_leaves_state_unchanged (s : BusinessState) (nid nd : String)
    (ct : CustomerType) (cid : Option String) (pm : PaymentMethod) (astr : String)
    (e : CheckoutError) (h : (checkout s nid nd ct cid pm astr).2 = some e) :
    (checkout s nid nd ct cid pm astr).1 = s := by
  rcases hr : checkout s nid nd ct cid pm astr with ⟨s2, oe⟩
  have hr0 := hr
  unfold checkout at hr
  split at hr
  · cases hr; rfl
  · split at hr
    · split at hr
      · cases hr; rfl
      · split at hr
        · cases hr; rfl
        · split at hr
          · cases hr; rfl
          · rw [← hr]
            apply runCompletePurchase_err_fst _ _ _ _ _ _ _ e
            rw [hr, ← hr0]
            exact h
    · rw [← hr]
      apply runCompletePurchase_err_fst _ _ _ _ _ _ _ e
      rw [hr, ← hr0]
      exact h

/-- Sample state with an empty cart, used to witness the empty-cart failure. -/
def demoStateEmptyCart : BusinessState := { demoState with cart := [] }

/-- C2 witness: a concrete checkout on an empty cart fails with EmptyCart
and leaves the state unchanged. -/
theorem C2_witness :
    (checkout demoStateEmptyCart "w2" "2024-01-04" CustomerType.occasional none
        PaymentMethod.cash "").2 = some CheckoutError.emptyCart ∧
    (checkout demoStateEmptyCart "w2" "2024-01-04" CustomerType.occasional none
        PaymentMethod.cash "").1 = demoStateEmptyCart := by
  constructor
  · simp [checkout, runCompletePurchase, completePurchase, strTruthy, demoStateEmptyCart]
  · exact C2_validation_failure_leaves_state_unchanged _ _ _ _ _ _ _ CheckoutError.emptyCart
      (by simp [checkout, runCompletePurchase, completePurchase, strTruthy, demoStateEmptyCart])

/-- C3: a checkout attempt with payment method credit and no (or falsy)
selected customer id fails with CustomerRequired and commits nothing: the
state, and so the purchase list, stock and cart, are exactly as before. -/
theorem C3_credit_requires_customer (s : BusinessState) (nid nd : String)
    (ct : CustomerType) (cid : Option String) (astr : String)
    (h : strTruthy cid = false) :
    checkout s nid nd ct cid PaymentMethod.credit astr =
      (s, some CheckoutError.customerRequired) := by
  simp [checkout, h]

/-- C3 witness: concrete credit checkout with no selected customer. -/
theorem C3_witness :
    strTruthy none = false ∧
    checkout demoState "w3" "2024-01-05" CustomerType.occasional none
        PaymentMethod.credit "" = (demoState, some CheckoutError.customerRequired) :=
  ⟨rfl, C3_credit_requires_customer demoState "w3" "2024-01-05" CustomerType.occasional
    none "" rfl⟩

/-- On a non-empty cart, the purchase's status is `purchaseStatus`. -/
lemma completePurchase_status (s : BusinessState) (nid nd : String) (ct : CustomerType)
    (cid : Option String) (pm : PaymentMethod) (ap : Option ℚ) (h : s.cart ≠ []) :
    (completePurchase s nid nd ct cid pm ap).2.map Purchase.payment_status =
      some (purchaseStatus s.customers cid pm ap (calculateSubtotalUSD s.cart)) := by
  unfold completePurchase
  simp [h]

/-- On a non-empty cart, the per-customer credits after the commit are the
old credits shifted by `creditDelta` exactly on the truthy matched id. -/
lemma completePurchase_credits (s : BusinessState) (nid nd : String) (ct : CustomerType)
    (cid : Option String) (pm : PaymentMethod) (ap : Option ℚ) (h : s.cart ≠ []) :
    (completePurchase s nid nd ct cid pm ap).1.customers.map
        (fun c => (c.id, c.current_credit)) =
      s.customers.map (fun c => (c.id,
        if strTruthy cid ∧ some c.id = cid then
          c.current_credit + creditDelta pm ap (calculateSubtotalUSD s.cart)
        else c.current_credit)) := by
  unfold completePurchase
  simp only [h, if_neg, reduceIte]
  by_cases ht : strTruthy cid
  · simp only [ht, if_pos, List.map_map, true_and]
    refine List.map_congr_left ?_
    intro c _
    by_cases hm : some c.id = cid <;> simp [hm]
  · simp [ht]

/-- C1 (amended): for every commit on a non-empty cart, the payment status
and credit movement are derived as follows: credit method gives status
"credit" and adds totalUSD to the credit of the (truthy) matched customer; a
non-credit method with a provided NONZERO amountPaid below totalUSD and an
id naming an existing customer gives status "partial" and adds the
shortfall; in every other case the status is "paid" and no credit changes. -/
theorem C1_payment_status_derivation (s : BusinessState) (nid nd : String)
    (ct : CustomerType) (cid : Option String) (pm : PaymentMethod) (ap : Option ℚ)
    (h : s.cart ≠ []) :
    ((pm = PaymentMethod.credit →
        (completePurchase s nid nd ct cid pm ap).2.map Purchase.payment_status =
          some "credit" ∧
        (completePurchase s nid nd ct cid pm ap).1.customers.map
            (fun c => (c.id, c.current_credit)) =
          s.customers.map (fun c => (c.id,
            if strTruthy cid ∧ some c.id = cid then
              c.current_credit + calculateSubtotalUSD s.cart
            else c.current_credit))) ∧
      (∀ a i, pm ≠ PaymentMethod.credit → ap = some a → a ≠ 0 →
          a < calculateSubtotalUSD s.cart → cid = some i → i ≠ "" →
          s.customers.any (fun c => c.id == i) = true →
        (completePurchase s nid nd ct cid pm ap).2.map Purchase.payment_status =
          some "partial" ∧
        (completePurchase s nid nd ct cid pm ap).1.customers.map
            (fun c => (c.id, c.current_credit)) =
          s.customers.map (fun c => (c.id,
            if c.id = i then c.current_credit + (calculateSubtotalUSD s.cart - a)
            else c.current_credit))) ∧
      (pm ≠ PaymentMethod.credit →
          purchasePartialCond s.customers cid pm ap (calculateSubtotalUSD s.cart) = false →
        (completePurchase s nid nd ct cid pm ap).2.map Purchase.payment_status =
          some "paid" ∧
        (completePurchase s nid nd ct cid pm ap).1.customers.map
            (fun c => (c.id, c.current_credit)) =
          s.customers.map (fun c => (c.id, c.current_credit)))) := by
  refine ⟨?_, ?_, ?_⟩
  · intro hpm
    subst hpm
    refine ⟨?_, ?_⟩
    · rw [completePurchase_status s nid nd ct cid PaymentMethod.credit ap h]
      simp [purchaseStatus]
    · rw [completePurchase_credits s nid nd ct cid PaymentMethod.credit ap h]
      refine List.map_congr_left ?_
      intro c _
      simp [creditDelta]
  · intro a i hpm hap ha0 halt hcid hi hany
    subst hap
    subst hcid
    have hpc : purchasePartialCond s.customers (some i) pm (some a)
        (calculateSubtotalUSD s.cart) = true := by
      simp only [purchasePartialCond, Bool.and_eq_true, decide_eq_true_eq, beq_iff_eq]
      refine ⟨⟨⟨⟨by simpa using hi, hany⟩, ?_⟩, by simpa using ha0⟩, halt⟩
      simp only [Bool.not_eq_true']
      exact beq_eq_false_iff_ne.mpr hpm
    refine ⟨?_, ?_⟩
    · rw [completePurchase_status s nid nd ct (some i) pm (some a) h]
      simp [purchaseStatus, hpm, hpc]
    · rw [completePurchase_credits s nid nd ct (some i) pm (some a) h]
      refine List.map_congr_left ?_
      intro c _
      have hd : creditDelta pm (some a) (calculateSubtotalUSD s.cart) =
          calculateSubtotalUSD s.cart - a := by
        simp [creditDelta, hpm, ha0, halt]
      by_cases hm : c.id = i
      · simp [hm, strTruthy, hi, hd]
      · have : ¬ (some c.id = some i) := by simpa using hm
        simp [hm, this]
  · intro hpm hpc
    refine ⟨?_, ?_⟩
    · rw [completePurchase_status s nid nd ct cid pm ap h]
      simp [purchaseStatus, hpm, hpc]
    · rw [completePurchase_credits s nid nd ct cid pm ap h]
      refine List.map_congr_left ?_
      intro c hc
      by_cases hcond : strTruthy cid ∧ some c.id = cid
      · rcases hcond with ⟨ht, hm⟩
        have hd : creditDelta pm ap (calculateSubtotalUSD s.cart) = 0 := by
          rcases cid with _ | i
          · simp [strTruthy] at ht
          · rcases ap with _ | a
            · simp [creditDelta, hpm]
            · simp only [creditDelta, if_neg hpm]
              by_cases hz : a ≠ 0 ∧ a < calculateSubtotalUSD s.cart
              · exfalso
                have hi : i ≠ "" := by simpa [strTruthy] using ht
                have hcm : c.id = i := by simpa using hm
                have hany : s.customers.any (fun d => d.id == i) = true := by
                  refine List.any_eq_true.mpr ⟨c, hc, ?_⟩
                  simpa using hcm
                have : purchasePartialCond s.customers (some i) pm (some a)
                    (calculateSubtotalUSD s.cart) = true := by
                  simp only [purchasePartialCond, Bool.and_eq_true, decide_eq_true_eq,
                    beq_iff_eq]
                  refine ⟨⟨⟨⟨by simpa using hi, hany⟩, ?_⟩, by simpa using hz.1⟩, hz.2⟩
                  simp only [Bool.not_eq_true']
                  exact beq_eq_false_iff_ne.mpr hpm
                rw [this] at hpc
                exact Bool.noConfusion hpc
              · simp [if_neg hz]
        simp [ht, hm, hd]
      · simp [hcond]

/-- C1 witness: concrete partial-payment commit — cash, amountPaid 20 on a
30 USD cart with customer c1 selected — yields status "partial" and moves
the customer's credit from 0 to 10. -/
theorem C1_witness :
    (completePurchase demoState "w1" "2024-01-06" CustomerType.regular (some "c1")
        PaymentMethod.cash (some 20)).2.map Purchase.payment_status = some "partial" ∧
    (completePurchase demoState "w1" "2024-01-06" CustomerType.regular (some "c1")
        PaymentMethod.cash (some 20)).1.customers.map
        (fun c => (c.id, c.current_credit)) = [("c1", 10)] := by
  have hsub : calculateSubtotalUSD demoState.cart = 30 := by
    norm_num [calculateSubtotalUSD, demoState, demoProduct, round2, roundTo]
  have h := (C1_payment_status_derivation demoState "w1" "2024-01-06" CustomerType.regular
    (some "c1") PaymentMethod.cash (some 20) (by decide)).2.1 20 "c1"
    (by decide) rfl (by norm_num) (by rw [hsub]; norm_num) rfl (by decide) (by decide)
  refine ⟨h.1, ?_⟩
  rw [h.2, hsub]
  norm_num [demoState, demoCustomer]

/-- Driver operations for state sequences: direct stock updates, the cart
operations, and checkout commits. -/
inductive Op where
  | upStock (productId : String) (newStock : ℚ)
  | addCart (product : Product) (quantity : ℚ)
  | setQty (productId : String) (quantity : ℚ)
  | removeCart (productId : String)
  | checkoutStep (nid nd : String) (ct : CustomerType) (cid : Option String)
      (pm : PaymentMethod) (ap : Option ℚ)

/-- One driver operation applied to the business state. -/
def applyOp (s : BusinessState) : Op → BusinessState
  | Op.upStock pid v => { s with products := updateProductStock s.products pid v }
  | Op.addCart p q => { s with cart := addToCart s.cart p q }
  | Op.setQty pid q => { s with cart := updateCartItemQuantity s.products s.cart pid q }
  | Op.removeCart pid => { s with cart := removeFromCart s.cart pid }
  | Op.checkoutStep nid nd ct cid pm ap => (completePurchase s nid nd ct cid pm ap).1

/-- A whole sequence of driver operations. -/
def applyOps (s : BusinessState) (ops : List Op) : BusinessState := ops.foldl applyOp s

/-- Rounding to decimals preserves non-negativity. -/
lemma roundTo_nonneg (n : ℕ) (x : ℚ) (hx : 0 ≤ x) : 0 ≤ roundTo n x := by
  unfold roundTo
  have h1 : (0 : ℤ) ≤ ⌊x * 10 ^ n + 1 / 2⌋ := by
    apply Int.floor_nonneg.mpr
    positivity
  apply div_nonneg
  · exact_mod_cast h1
  · positivity

/-- The checkout commit keeps every stock non-negative. -/
lemma completePurchase_products_nonneg (s : BusinessState) (nid nd : String)
    (ct : CustomerType) (cid : Option String) (pm : PaymentMethod) (ap : Option ℚ)
    (hs : ∀ p ∈ s.products, 0 ≤ p.stock) :
    ∀ p ∈ (completePurchase s nid nd ct cid pm ap).1.products, 0 ≤ p.stock := by
  intro p hp
  unfold completePurchase at hp
  by_cases hc : s.cart = []
  · simp only [hc, reduceIte] at hp
    exact hs p hp
  · simp only [hc, reduceIte] at hp
    rcases List.mem_map.mp hp with ⟨q, hq, rfl⟩
    cases hf : s.cart.find? (fun it => it.id == q.id) with
    | some it =>
      simp only [hf]
      exact roundTo_nonneg 2 _ (le_max_left 0 _)
    | none =>
      simp only [hf]
      exact hs q hq

/-- The direct stock update keeps every stock non-negative. -/
lemma updateProductStock_nonneg (ps : List Product) (pid : String) (v : ℚ)
    (hs : ∀ p ∈ ps, 0 ≤ p.stock) :
    ∀ p ∈ updateProductStock ps pid v, 0 ≤ p.stock := by
  intro p hp
  unfold updateProductStock at hp
  by_cases hv : v < 0
  · simp only [hv, reduceIte] at hp
    exact hs p hp
  · simp only [hv, reduceIte] at hp
    rcases List.mem_map.mp hp with ⟨q, hq, rfl⟩
    by_cases hid : q.id == pid
    · simp only [hid, reduceIte]
      exact le_of_not_lt hv
    · simp only [hid, reduceIte]
      exact hs q hq

/-- Every single driver operation keeps every stock non-negative. -/
lemma applyOp_stock_nonneg (s : BusinessState) (op : Op)
    (hs : ∀ p ∈ s.products, 0 ≤ p.stock) :
    ∀ p ∈ (applyOp s op).products, 0 ≤ p.stock := by
  cases op with
  | upStock pid v => exact updateProductStock_nonneg s.products pid v hs
  | addCart p q => exact hs
  | setQty pid q => exact hs
  | removeCart pid => exact hs
  | checkoutStep nid nd ct cid pm ap =>
    exact completePurchase_products_nonneg s nid nd ct cid pm ap hs

/-- C4 (amended): along every sequence of stock updates, cart edits and
checkouts every product's stock stays non-negative; a checkout on a
non-empty cart rewrites each purchased product's stock to
max(0, stock - quantity) rounded to two decimals and its sales_count to
sales_count + quantity rounded to two decimals, leaving other products
alone; and updateProductStock rejects any negative value, leaving the whole
catalog unchanged. -/
theorem C4_stock_invariant_and_decrement :
    (∀ (s : BusinessState) (ops : List Op), (∀ p ∈ s.products, 0 ≤ p.stock) →
      ∀ p ∈ (applyOps s ops).products, 0 ≤ p.stock) ∧
    (∀ (s : BusinessState) (nid nd : String) (ct : CustomerType) (cid : Option String)
        (pm : PaymentMethod) (ap : Option ℚ), s.cart ≠ [] →
      (completePurchase s nid nd ct cid pm ap).1.products.map
          (fun p => (p.id, p.stock, p.sales_count)) =
        s.products.map (fun p =>
          match s.cart.find? (fun it => it.id == p.id) with
          | some it =>
            (p.id, round2 (max 0 (p.stock - it.quantity)),
              round2 (p.sales_count + it.quantity))
          | none => (p.id, p.stock, p.sales_count))) ∧
    (∀ (ps : List Product) (pid : String) (v : ℚ), v < 0 →
      updateProductStock ps pid v = ps) := by
  refine ⟨?_, ?_, ?_⟩
  · intro s ops
    induction ops generalizing s with
    | nil => intro hs; exact hs
    | cons op rest ih =>
      intro hs
      exact ih (applyOp s op) (applyOp_stock_nonneg s op hs)
  · intro s nid nd ct cid pm ap h
    unfold completePurchase
    simp only [h, reduceIte, List.map_map]
    refine List.map_congr_left ?_
    intro p _
    cases hf : s.cart.find? (fun it => it.id == p.id) with
    | some it => simp [hf]
    | none => simp [hf]
  · intro ps pid v hv
    simp [updateProductStock, hv]

/-- C4 witness: the end-to-end checkout on the sample state keeps stock
non-negative and rewrites it to 2 with sales_count 3; a negative stock
update is rejected on the sample catalog. -/
theorem C4_witness :
    (∀ p ∈ (applyOps demoState [Op.checkoutStep "w4" "2024-01-07" CustomerType.occasional
        none PaymentMethod.cash (some 30)]).products, 0 ≤ p.stock) ∧
    (completePurchase demoState "w4" "2024-01-07" CustomerType.occasional none
        PaymentMethod.cash (some 30)).1.products.map
        (fun p => (p.id, p.stock, p.sales_count)) =
      demoState.products.map (fun p =>
        match demoState.cart.find? (fun it => it.id == p.id) with
        | some it =>
          (p.id, round2 (max 0 (p.stock - it.quantity)),
            round2 (p.sales_count + it.quantity))
        | none => (p.id, p.stock, p.sales_count)) ∧
    updateProductStock demoState.products "p1" (-1) = demoState.products := by
  refine ⟨C4_stock_invariant_and_decrement.1 demoState _ ?_,
    C4_stock_invariant_and_decrement.2.1 demoState "w4" "2024-01-07"
      CustomerType.occasional none PaymentMethod.cash (some 30) (by decide),
    C4_stock_invariant_and_decrement.2.2 demoState.products "p1" (-1) (by norm_num)⟩
  intro p hp
  simp only [demoState, demoProduct, List.mem_singleton] at hp
  subst hp
  norm_num

/-- Two-decimal rounding is exact on multiples of one hundredth. -/
lemma round2_natCast_div_100 (k : ℕ) : round2 ((k : ℚ) / 100) = (k : ℚ) / 100 := by
  unfold round2 roundTo
  have h1 : ((k : ℚ) / 100 * 10 ^ 2 + 1 / 2) = (k : ℚ) + 1 / 2 := by ring
  rw [h1]
  have h2 : ⌊(k : ℚ) + 1 / 2⌋ = (k : ℤ) := by
    rw [Int.floor_eq_iff]
    constructor
    · push_cast
      linarith
    · push_cast
      linarith
  rw [h2]
  push_cast
  norm_num

/-- Updating the line of a fresh id inside an appended cart: the filter on
that id sees exactly the updated appended line. -/
lemma filter_update_fresh (cart : List CartItem) (pid : String) (tq : ℚ) (x : CartItem)
    (h : ∀ it ∈ cart, (it.id == pid) = false) (hx : (x.id == pid) = true) :
    (((cart ++ [x]).map
        (fun it => if it.id == pid then { it with quantity := tq } else it)).filter
        (fun it => it.id == pid)).map CartItem.quantity = [tq] := by
  induction cart with
  | nil =>
    have hx2 : x.id = pid := by simpa using hx
    simp [hx2]
  | cons a t ih =>
    have ha := h a (List.mem_cons_self a t)
    simp only [List.cons_append, List.map_cons, List.filter_cons, ha, Bool.false_eq_true,
      reduceIte]
    exact ih (fun it hit => h it (List.mem_cons_of_mem a hit))

/-- C5 (amended): for quantities q1, q2 > 0 given to at most two decimal
places with q1 + q2 within stock, adding the same product twice to a cart
that has no line for it yet yields exactly one line for that product id,
with quantity exactly q1 + q2 (on finer quantities the merge rounds the sum
to two decimals, see the counterexample). -/
theorem C5_repeat_add_merges_to_single_line (cart : List CartItem) (product : Product)
    (q1 q2 : ℚ) (k1 k2 : ℕ) (hk1 : q1 = (k1 : ℚ) / 100) (hk2 : q2 = (k2 : ℚ) / 100)
    (h1 : 0 < q1) (h2 : 0 < q2) (hs : q1 + q2 ≤ product.stock)
    (hfresh : ∀ it ∈ cart, (it.id == product.id) = false) :
    ((addToCart (addToCart cart product q1) product q2).filter
        (fun it => it.id == product.id)).map CartItem.quantity = [q1 + q2] := by
  have hq1le : ¬ (product.stock < q1) := not_lt.mpr (le_trans (by linarith) hs)
  have hq2le : ¬ (product.stock < q2) := not_lt.mpr (le_trans (by linarith) hs)
  have hfind1 : cart.find? (fun item => item.id == product.id) = none := by
    apply List.find?_eq_none.mpr
    intro x hx
    simp [hfresh x hx]
  have step1 : addToCart cart product q1 =
      cart ++ [({ product with quantity := q1 } : CartItem)] := by
    unfold addToCart
    rw [if_neg (not_le.mpr h1), if_neg hq1le, hfind1]
  have hround : round2 (q1 + q2) = q1 + q2 := by
    have hsum : q1 + q2 = ((k1 + k2 : ℕ) : ℚ) / 100 := by
      rw [hk1, hk2]
      push_cast
      ring
    rw [hsum, round2_natCast_div_100]
  have hfind2 : (cart ++ [({ product with quantity := q1 } : CartItem)]).find?
      (fun item => item.id == product.id) =
      some ({ product with quantity := q1 } : CartItem) := by
    rw [List.find?_append, hfind1]
    simp [List.find?]
  rw [step1]
  unfold addToCart
  rw [if_neg (not_le.mpr h2), if_neg hq2le, hfind2]
  simp only [hround]
  rw [if_neg (not_lt.mpr hs)]
  exact filter_update_fresh cart product.id (q1 + q2)
    ({ product with quantity := q1 } : CartItem) hfresh (by simp)

/-- C5 witness: adding 0.5 and then 2 of the sample product (stock 5) to an
empty cart yields one line with quantity 2.5. -/
theorem C5_witness :
    ((addToCart (addToCart [] demoProduct (1 / 2)) demoProduct 2).filter
        (fun it => it.id == demoProduct.id)).map CartItem.quantity = [5 / 2] := by
  have h := C5_repeat_add_merges_to_single_line [] demoProduct (1 / 2) 2 50 200
    (by norm_num) (by norm_num) (by norm_num) (by norm_num)
    (by norm_num [demoProduct]) (by intro it hit; exact absurd hit (List.not_mem_nil it))
  rw [h]
  norm_num

/-- C7: bulk import keeps every existing product unchanged in place, adds
exactly the batch records whose lowercased name is unseen in the prior
catalog, and no record whose name matches an existing product's name
case-insensitively is added. -/
theorem C7_import_dedup_against_catalog (prev batch : List Product) (N M : ℕ)
    (hN : (batch.filter (fun p =>
      !((prev.map (fun q => jsToLowerCase q.name)).contains (jsToLowerCase p.name)))).length
      = N)
    (_hM : (batch.filter (fun p =>
      (prev.map (fun q => jsToLowerCase q.name)).contains (jsToLowerCase p.name))).length
      = M) :
    (uploadMergeProducts prev batch).take prev.length = prev ∧
    (uploadMergeProducts prev batch).length = prev.length + N ∧
    (∀ p ∈ batch,
      ((prev.map (fun q => jsToLowerCase q.name)).contains (jsToLowerCase p.name)) = true →
      p ∉ (uploadMergeProducts prev batch).drop prev.length) := by
  unfold uploadMergeProducts
  refine ⟨List.take_left prev _, ?_, ?_⟩
  · rw [List.length_append, hN]
  · intro p _ hseen
    rw [List.drop_left]
    intro hmem
    have hpred := (List.mem_filter.mp hmem).2
    rw [hseen] at hpred
    exact Bool.noConfusion hpred

/-- A batch record duplicating the sample product's name up to case. -/
def demoImportDup : Product := { demoProduct with id := "i3", name := "SODA" }

/-- C7 witness: importing one unseen record plus one case-insensitive
duplicate of "Soda" against the sample catalog keeps the catalog prefix,
adds exactly one product, and drops the duplicate. -/
theorem C7_witness :
    (uploadMergeProducts [demoProduct] [demoImportA, demoImportDup]).take
        [demoProduct].length = [demoProduct] ∧
    (uploadMergeProducts [demoProduct] [demoImportA, demoImportDup]).length =
      [demoProduct].length + 1 ∧
    demoImportDup ∉
      (uploadMergeProducts [demoProduct] [demoImportA, demoImportDup]).drop
        [demoProduct].length := by
  have h := C7_import_dedup_against_catalog [demoProduct] [demoImportA, demoImportDup] 1 1
    (by decide) (by decide)
  exact ⟨h.1, h.2.1, h.2.2 demoImportDup (by simp) (by decide)⟩

/-- C8 (amended): a payment converts the amount to USD (dividing by the
rate when tendered in BS) and subtracts it from the matched customer's
current_credit with no floor at zero, leaving every other customer
untouched; an id naming no customer leaves the ledger unchanged and signals
nothing — there is no CustomerNotFound failure path. -/
theorem C8_payment_application (customers : List Customer) (rate : ℚ) (cid : String)
    (amount : ℚ) (currency : Currency) :
    ((makePayment customers rate cid amount currency).1.map
        (fun c => (c.id, c.current_credit)) =
      customers.map (fun c => (c.id,
        if c.id = cid then
          c.current_credit - (if currency = Currency.bs then amount / rate else amount)
        else c.current_credit))) ∧
    (customers.any (fun c => c.id == cid) = false →
      makePayment customers rate cid amount currency = (customers, false)) := by
  constructor
  · unfold makePayment
    simp only [List.map_map]
    refine List.map_congr_left ?_
    intro c _
    by_cases hm : c.id = cid <;> simp [hm]
  · intro h
    unfold makePayment
    rw [h]
    simp only [Prod.mk.injEq, and_true]
    have h1 : ∀ c ∈ customers,
        (if c.id == cid then
          { c with current_credit := c.current_credit -
            (if currency = Currency.bs then amount / rate else amount) }
         else c) = c := by
      intro c hc
      have hne := List.any_eq_false.mp h c hc
      simp only [Bool.not_eq_true] at hne
      simp [hne]
    calc customers.map _ = customers.map (fun c => c) := List.map_congr_left h1
    _ = customers := List.map_id' customers

/-- C8 witness: paying 10 USD for the sample customer (credit 0) drives the
credit to -10 — overpayment is kept as credit-in-favor, not floored — and a
payment against an unknown id returns the ledger unchanged. -/
theorem C8_witness :
    (makePayment [demoCustomer] (71 / 2) "c1" 10 Currency.usd).1.map
        (fun c => (c.id, c.current_credit)) = [("c1", -10)] ∧
    makePayment [demoCustomer] (71 / 2) "zz" 10 Currency.usd = ([demoCustomer], false) := by
  constructor
  · have h := (C8_payment_application [demoCustomer] (71 / 2) "c1" 10 Currency.usd).1
    rw [h]
    norm_num [demoCustomer]
    decide
  · exact (C8_payment_application [demoCustomer] (71 / 2) "zz" 10 Currency.usd).2
      (by decide)

/-- C9 (amended): the quantity input accepts "." or "," as decimal
separator (first comma swapped for a dot before parsing); a non-numeric or
non-positive entry leaves the cart unchanged; a positive entry within the
live stock is stored with the cart line's quantity equal to the entered
value rounded to TWO decimal places. -/
theorem C9_quantity_parsing_and_storage (products : List Product) (cart : List CartItem)
    (pid : String) (value : String) :
    ((jsParseFloat (replaceFirstComma value) = none →
        handleQuantityChange products cart pid value = cart) ∧
      (∀ q : ℚ, jsParseFloat (replaceFirstComma value) = some q → q ≤ 0 →
        handleQuantityChange products cart pid value = cart) ∧
      (∀ q : ℚ, jsParseFloat (replaceFirstComma value) = some q → 0 < q →
        stockBlocked products pid q = false →
        handleQuantityChange products cart pid value =
          cart.map (fun it =>
            if it.id == pid then { it with quantity := round2 q } else it))) := by
  refine ⟨?_, ?_, ?_⟩
  · intro h
    unfold handleQuantityChange
    rw [h]
  · intro q h hq
    unfold handleQuantityChange
    rw [h]
    simp [not_lt.mpr hq]
  · intro q h hq hsb
    unfold handleQuantityChange
    rw [h]
    simp only [hq, reduceIte]
    unfold updateCartItemQuantity
    rw [if_neg (not_le.mpr hq)]
    simp [hsb]

/-- C9 witness: entering "2,5" for the sample cart line stores quantity
2.5 (comma separator accepted, two-decimal rounding exact here). -/
theorem C9_witness :
    (handleQuantityChange [demoProduct] [{ demoProduct with quantity := 1 }] "p1"
        "2,5").map CartItem.quantity = [5 / 2] := by
  have hp : jsParseFloat (replaceFirstComma "2,5") = some (5 / 2 : ℚ) := by
    simp +decide [jsParseFloat, jsParseFloatCore, replaceFirstComma, replaceFirstCommaCore,
      takeDigits, digitVal, digitsVal, fracVal]
    norm_num
  have hsb : stockBlocked [demoProduct] "p1" (5 / 2) = false := by
    simp only [stockBlocked, demoProduct, List.find?]
    norm_num
  have h := (C9_quantity_parsing_and_storage [demoProduct]
    [{ demoProduct with quantity := 1 }] "p1" "2,5").2.2 (5 / 2) hp (by norm_num) hsb
  rw [h]
  norm_num [demoProduct, round2, roundTo]

end TinyBiz
